import Mathlib

/-!
# otel-cli: verification of `cmd/root.go`

A shallow embedding of the root command of otel-cli: the package-level flag
variables, their registration in `init`, the configuration bootstrap
`initConfig`, and the span-kind resolution `otelSpanKind`.

Calls into the libraries the file imports (cobra, pflag, viper, go-homedir,
fmt) are effects: `initConfig` is embedded as a function that returns the
sequence of library calls it performs together with the way it ends, and
the answers of the libraries are supplied by a `World`.
-/

namespace OtelCli

/-! ## Span kinds -/

/-- The values of `trace.SpanKind` named in `otelSpanKind`. -/
inductive SpanKind
  | SpanKindUnspecified
  | SpanKindInternal
  | SpanKindServer
  | SpanKindClient
  | SpanKindProducer
  | SpanKindConsumer
  deriving DecidableEq, Repr

/-- The function `otelSpanKind` of `cmd/root.go`; the package variable
`spanKind` it switches on is passed as the argument. The cases are in the
order of the source. -/
def otelSpanKind (spanKind : String) : SpanKind :=
  if spanKind = "client" then SpanKind.SpanKindClient
  else if spanKind = "server" then SpanKind.SpanKindServer
  else if spanKind = "producer" then SpanKind.SpanKindProducer
  else if spanKind = "consumer" then SpanKind.SpanKindConsumer
  else if spanKind = "internal" then SpanKind.SpanKindInternal
  else SpanKind.SpanKindUnspecified

/-! ## Package variables and flag registration -/

/-- A Go `map[string]string`, as the lookup function of its keys. -/
abbrev StringMap := String → Option String

/-- The empty map `map[string]string{}`. -/
def StringMap.empty : StringMap := fun _ => none

/-- Assignment `m[k] = v` for every pair of `upd`, the other keys of `m`
being kept. -/
def StringMap.assignAll (m upd : StringMap) : StringMap :=
  fun k => match upd k with
    | some v => some v
    | none => m k

/-- The package-level variables of `cmd/root.go`
(`cfgFile, appName, spanName, spanKind`, `attributes`,
`ignoreTraceparentEnv, printSpan`). -/
structure Vars where
  cfgFile : String
  appName : String
  spanName : String
  spanKind : String
  attributes : StringMap
  ignoreTraceparentEnv : Bool
  printSpan : Bool

/-- The variables as `init` leaves them: every `…VarP(&v, name, short, value,
usage)` registration stores its default `value` into `v`. -/
def init : Vars where
  cfgFile := ""
  appName := "otel-cli"
  spanName := "todo-generate-default-span-names"
  spanKind := "client"
  attributes := StringMap.empty
  ignoreTraceparentEnv := false
  printSpan := false

/-- One flag given on the command line, by the long name `init` registers it
under, with its parsed value. -/
inductive FlagArg
  | config (value : String)
  | serviceName (value : String)
  | spanName (value : String)
  | attrs (value : StringMap)
  | kind (value : String)
  | ignoreTpEnv (value : Bool)
  | printSpan (value : Bool)

/-- A flag's `Set`: the registered variable takes the value given. For
`--attrs` (a `StringToString` flag) the first occurrence replaces the default
map and a repeated occurrence assigns its pairs into the map already set;
`changed` tells whether `--attrs` occurred before. -/
def setFlag (st : Vars × Bool) (a : FlagArg) : Vars × Bool :=
  match a with
  | FlagArg.config v => ({ st.1 with cfgFile := v }, st.2)
  | FlagArg.serviceName v => ({ st.1 with appName := v }, st.2)
  | FlagArg.spanName v => ({ st.1 with spanName := v }, st.2)
  | FlagArg.attrs m =>
      ({ st.1 with attributes := if st.2 then st.1.attributes.assignAll m else m }, true)
  | FlagArg.kind v => ({ st.1 with spanKind := v }, st.2)
  | FlagArg.ignoreTpEnv b => ({ st.1 with ignoreTraceparentEnv := b }, st.2)
  | FlagArg.printSpan b => ({ st.1 with printSpan := b }, st.2)

/-- The variables after the command line `args` has been parsed over the
registrations of `init`, and whether `--attrs` was given. -/
def parseFlags (args : List FlagArg) : Vars × Bool :=
  args.foldl setFlag (init, false)

/-- Whether the flag `--service-name` occurs in the command line. -/
def givesServiceName : FlagArg → Bool
  | FlagArg.serviceName _ => true
  | _ => false

/-- Whether the flag `--kind` occurs in the command line. -/
def givesKind : FlagArg → Bool
  | FlagArg.kind _ => true
  | _ => false

/-- The value a command-line flag gives to the attribute key `k`: that of its
map for an occurrence of `--attrs`, none for any other flag. -/
def attrsValue (k : String) : FlagArg → Option String
  | FlagArg.attrs m => m k
  | _ => none

/-! ## `initConfig` -/

/-- The library calls `initConfig` can make, with their arguments. -/
inductive Call
  | viperSetConfigFile (path : String)
  | homedirDir
  | cobraCheckErr (err : Option String)
  | viperAddConfigPath (path : String)
  | viperSetConfigName (name : String)
  | viperAutomaticEnv
  | viperReadInConfig
  | viperConfigFileUsed
  | fmtFprintlnStderr (args : List String)
  deriving DecidableEq, Repr

/-- What the libraries answer. `homedirDir` is the pair `(home, err)` of
`homedir.Dir()`; `viperReadInConfig` is the error of `viper.ReadInConfig()`
(`none` for `nil`) and `viperConfigFileUsed` the string of
`viper.ConfigFileUsed()`, both given the calls made so far. -/
structure World where
  homedirDir : String × Option String
  viperReadInConfig : List Call → Option String
  viperConfigFileUsed : List Call → String

/-- How `initConfig` ends: it returns, or `cobra.CheckErr` receives a non-nil
error and terminates the process with it. -/
inductive Outcome
  | returned
  | exited (err : String)
  deriving DecidableEq, Repr

/-- Lines 76–81 of `initConfig`, after the calls `done` of the location
branch: `viper.AutomaticEnv()`, then `viper.ReadInConfig()`, whose error is
only compared with `nil` to decide whether the notice is printed. -/
def readConfig (w : World) (done : List Call) : List Call × Outcome :=
  let t := done ++ [Call.viperAutomaticEnv]
  match w.viperReadInConfig t with
  | none =>
      let t1 := t ++ [Call.viperReadInConfig]
      (t1 ++ [Call.viperConfigFileUsed,
        Call.fmtFprintlnStderr ["Using config file:", w.viperConfigFileUsed t1]],
       Outcome.returned)
  | some _ => (t ++ [Call.viperReadInConfig], Outcome.returned)

/-- The function `initConfig` of `cmd/root.go`, on the value of the package
variable `cfgFile`: the calls it makes, in order, and how it ends. -/
def initConfig (cfgFile : String) (w : World) : List Call × Outcome :=
  if cfgFile ≠ "" then
    readConfig w [Call.viperSetConfigFile cfgFile]
  else
    match w.homedirDir with
    | (_, some err) =>
        ([Call.homedirDir, Call.cobraCheckErr (some err)], Outcome.exited err)
    | (home, none) =>
        readConfig w [Call.homedirDir, Call.cobraCheckErr none,
          Call.viperAddConfigPath home, Call.viperSetConfigName ".otel-cli"]

/-- The notice `initConfig` prints when a config file was read. -/
def isUsingNotice : Call → Bool
  | Call.fmtFprintlnStderr ("Using config file:" :: _) => true
  | _ => false

/-! ## Trace context codec

`cmd/root.go` registers the flags `--ignore-tp-env` and `--print-span`, which
speak of the TRACEPARENT variable and of the w3c-formatted traceparent of a
span, but holds no code that reads or writes that format. The codec is
therefore taken from §3 and §4.2 of the specification. -/

/-- Modelled from the spec: the record `TraceContext` of the absent codec,
"{trace_id: 16-byte value, span_id: 8-byte value, trace_flags: 1-byte value,
version: 1-byte value}"; each value is held as the number its bytes spell,
most significant first. -/
structure TraceContext where
  trace_id : Nat
  span_id : Nat
  trace_flags : Nat
  version : Nat
  deriving DecidableEq, Repr

/-- Modelled from the spec: the reasons for which `decode` of the absent codec
"fails with `ContextFormatError`": field count, a field of the wrong length,
a non-hex character, an all-zero trace id, an all-zero span id, an
unsupported version. -/
inductive ContextFormatError
  | fieldCount
  | fieldLength
  | nonHex
  | zeroTraceId
  | zeroSpanId
  | unsupportedVersion
  deriving DecidableEq, Repr

/-- Modelled from the spec: the digits of the absent codec's "lower-case hex",
in the order of their values. -/
def hexDigits : List Char :=
  ['0', '1', '2', '3', '4', '5', '6', '7', '8', '9', 'a', 'b', 'c', 'd', 'e', 'f']

/-- Modelled from the spec: the value of a character of the absent codec's
"case-insensitive hex" input, 16 for a character that is no hex digit. -/
def hexValue (c : Char) : Nat := hexDigits.indexOf c.toLower

/-- Modelled from the spec: whether a character of the absent codec's input is
a hex digit, in either case. -/
def isHex (c : Char) : Bool := decide (hexValue c < 16)

/-- Modelled from the spec: the lower-case digit the absent codec's `encode`
emits for a value below 16. -/
def hexChar (d : Nat) : Char := hexDigits.getD d '0'

/-- Modelled from the spec: the number a field of the absent codec's input
spells in hex. -/
def hexToNat (cs : List Char) : Nat := cs.foldl (fun acc c => 16 * acc + hexValue c) 0

/-- Modelled from the spec: the digits the absent codec's `encode` emits for
a number, "lower-case hex, zero-padded to fixed widths". -/
def natToHex : Nat → Nat → List Char
  | 0, _ => []
  | width + 1, n => natToHex width (n / 16) ++ [hexChar (n % 16)]

/-- Modelled from the spec: the fields of the absent codec's "hyphen-delimited"
input. -/
def splitFields : List Char → List (List Char)
  | [] => [[]]
  | c :: cs =>
    if c = '-' then [] :: splitFields cs
    else
      match splitFields cs with
      | [] => [[c]]
      | field :: fields => (c :: field) :: fields

/-- Modelled from the spec: the version of the absent codec, "currently
exactly one supported version", the `00` of the spec's scenarios. -/
def supportedVersion : Nat := 0

/-- Modelled from the spec: `decode` of the absent Trace Context Codec. The
input is "`version-traceid-spanid-flags`, lengths exactly 2/32/16/2 hex
characters"; it fails on fewer than four fields, a wrong length, a non-hex
character, an all-zero trace id or span id, and a version other than the
supported one. Fields after the fourth are "parsed and discarded", as the
spec requires of vendor-specific trailing fields. -/
def decode (raw : String) : Except ContextFormatError TraceContext :=
  match splitFields raw.toList with
  | version :: traceId :: spanId :: flags :: _ =>
    if version.length ≠ 2 ∨ traceId.length ≠ 32 ∨ spanId.length ≠ 16 ∨ flags.length ≠ 2 then
      Except.error ContextFormatError.fieldLength
    else if (version ++ traceId ++ spanId ++ flags).all isHex = false then
      Except.error ContextFormatError.nonHex
    else if hexToNat traceId = 0 then Except.error ContextFormatError.zeroTraceId
    else if hexToNat spanId = 0 then Except.error ContextFormatError.zeroSpanId
    else if hexToNat version ≠ supportedVersion then
      Except.error ContextFormatError.unsupportedVersion
    else
      Except.ok
        { trace_id := hexToNat traceId, span_id := hexToNat spanId,
          trace_flags := hexToNat flags, version := hexToNat version }
  | _ => Except.error ContextFormatError.fieldCount

/-- Modelled from the spec: `encode` of the absent Trace Context Codec, which
"always emits lower-case hex, zero-padded to fixed widths, using the
supported version". -/
def encode (ctx : TraceContext) : String :=
  String.mk (natToHex 2 supportedVersion ++ '-' :: (natToHex 32 ctx.trace_id
    ++ '-' :: (natToHex 16 ctx.span_id ++ '-' :: natToHex 2 ctx.trace_flags)))

/-! ## Concrete inputs -/

/-- The map `{foo: bar, baz: inga}` of `--attrs "foo=bar,baz=inga"`. -/
def attrsFooBaz : StringMap := fun k =>
  if k = "foo" then some "bar" else if k = "baz" then some "inga" else none

/-- The config-file map `{baz: old, qux: keep}`. -/
def attrsBazQux : StringMap := fun k =>
  if k = "baz" then some "old" else if k = "qux" then some "keep" else none

/-- The map `{baz: new}` of a second `--attrs "baz=new"`. -/
def attrsBazNew : StringMap := fun k =>
  if k = "baz" then some "new" else none

/-- A world in which the home directory is `/home/op` and no config file can
be read. -/
def worldNoFile : World where
  homedirDir := ("/home/op", none)
  viperReadInConfig := fun _ => some "config file not found"
  viperConfigFileUsed := fun _ => ""

/-- A world in which the home directory is `/home/op` and the default config
file is read. -/
def worldDefaultFile : World where
  homedirDir := ("/home/op", none)
  viperReadInConfig := fun _ => none
  viperConfigFileUsed := fun _ => "/home/op/.otel-cli.yaml"

/-- A world in which the home directory cannot be determined and no config
file can be read. -/
def worldNoHome : World where
  homedirDir := ("", some "missing HOME")
  viperReadInConfig := fun _ => some "config file not found"
  viperConfigFileUsed := fun _ => ""

/-- A world in which `homedir.Dir()` fails although a default config file
could be read. -/
def worldHomeLookupFails : World where
  homedirDir := ("", some "cannot determine home directory")
  viperReadInConfig := fun _ => none
  viperConfigFileUsed := fun _ => "/home/op/.otel-cli.yaml"

/-! ## Lemmas on flag parsing -/

theorem foldl_setFlag_appName (args : List FlagArg) (st : Vars × Bool)
    (h : ∀ a ∈ args, givesServiceName a = false) :
    (args.foldl setFlag st).1.appName = st.1.appName := by
  induction args generalizing st with
  | nil => rfl
  | cons a rest ih =>
    have ha : givesServiceName a = false := h a (List.mem_cons_self a rest)
    have hrest : ∀ b ∈ rest, givesServiceName b = false :=
      fun b hb => h b (List.mem_cons_of_mem a hb)
    rw [List.foldl_cons, ih (setFlag st a) hrest]
    cases a <;> first | rfl | (simp [givesServiceName] at ha)

theorem foldl_setFlag_spanKind (args : List FlagArg) (st : Vars × Bool)
    (h : ∀ a ∈ args, givesKind a = false) :
    (args.foldl setFlag st).1.spanKind = st.1.spanKind := by
  induction args generalizing st with
  | nil => rfl
  | cons a rest ih =>
    have ha : givesKind a = false := h a (List.mem_cons_self a rest)
    have hrest : ∀ b ∈ rest, givesKind b = false :=
      fun b hb => h b (List.mem_cons_of_mem a hb)
    rw [List.foldl_cons, ih (setFlag st a) hrest]
    cases a <;> first | rfl | (simp [givesKind] at ha)

theorem setFlag_attributes_none (k : String) (st : Vars × Bool) (a : FlagArg)
    (hst : st.1.attributes k = none) (ha : attrsValue k a = none) :
    (setFlag st a).1.attributes k = none := by
  cases a with
  | attrs m =>
    have hm : m k = none := ha
    cases hc : st.2 <;> simp [setFlag, hc, StringMap.assignAll, hm, hst]
  | _ => exact hst

theorem foldl_setFlag_attributes_none (k : String) (args : List FlagArg) (st : Vars × Bool)
    (hst : st.1.attributes k = none) (h : ∀ a ∈ args, attrsValue k a = none) :
    (args.foldl setFlag st).1.attributes k = none := by
  induction args generalizing st with
  | nil => exact hst
  | cons a rest ih =>
    rw [List.foldl_cons]
    exact ih (setFlag st a)
      (setFlag_attributes_none k st a hst (h a (List.mem_cons_self a rest)))
      (fun b hb => h b (List.mem_cons_of_mem a hb))

theorem setFlag_attributes_kept (k : String) (st : Vars × Bool) (a : FlagArg)
    (hch : st.2 = true) (ha : attrsValue k a = none) :
    (setFlag st a).1.attributes k = st.1.attributes k ∧ (setFlag st a).2 = true := by
  cases a with
  | attrs m =>
    have hm : m k = none := ha
    simp [setFlag, hch, StringMap.assignAll, hm]
  | _ => exact ⟨rfl, hch⟩

theorem foldl_setFlag_attributes_kept (k : String) (args : List FlagArg) (st : Vars × Bool)
    (hch : st.2 = true) (h : ∀ a ∈ args, attrsValue k a = none) :
    (args.foldl setFlag st).1.attributes k = st.1.attributes k := by
  induction args generalizing st with
  | nil => rfl
  | cons a rest ih =>
    obtain ⟨h1, h2⟩ :=
      setFlag_attributes_kept k st a hch (h a (List.mem_cons_self a rest))
    rw [List.foldl_cons, ih (setFlag st a) h2 (fun b hb => h b (List.mem_cons_of_mem a hb)), h1]

theorem setFlag_attrs_gives (k v : String) (st : Vars × Bool) (m : StringMap)
    (hm : m k = some v) :
    (setFlag st (FlagArg.attrs m)).1.attributes k = some v ∧
      (setFlag st (FlagArg.attrs m)).2 = true := by
  cases hc : st.2 <;> simp [setFlag, hc, StringMap.assignAll, hm]

theorem readConfig_outcome (w : World) (done : List Call) :
    (readConfig w done).2 = Outcome.returned := by
  unfold readConfig
  dsimp only
  split <;> rfl

theorem readConfig_of_error (w : World) (done : List Call) (e : String)
    (h : w.viperReadInConfig (done ++ [Call.viperAutomaticEnv]) = some e) :
    readConfig w done =
      (done ++ [Call.viperAutomaticEnv] ++ [Call.viperReadInConfig], Outcome.returned) := by
  unfold readConfig
  dsimp only
  rw [h]

theorem readConfig_of_nil (w : World) (done : List Call)
    (h : w.viperReadInConfig (done ++ [Call.viperAutomaticEnv]) = none) :
    readConfig w done =
      (done ++ [Call.viperAutomaticEnv] ++ [Call.viperReadInConfig] ++
        [Call.viperConfigFileUsed,
         Call.fmtFprintlnStderr ["Using config file:",
           w.viperConfigFileUsed (done ++ [Call.viperAutomaticEnv] ++ [Call.viperReadInConfig])]],
       Outcome.returned) := by
  unfold readConfig
  dsimp only
  rw [h]

theorem initConfig_named (cfgFile : String) (w : World) (h : cfgFile ≠ "") :
    initConfig cfgFile w = readConfig w [Call.viperSetConfigFile cfgFile] := by
  unfold initConfig
  rw [if_pos h]

theorem initConfig_default (w : World) (home : String) (h : w.homedirDir = (home, none)) :
    initConfig "" w =
      readConfig w [Call.homedirDir, Call.cobraCheckErr none,
        Call.viperAddConfigPath home, Call.viperSetConfigName ".otel-cli"] := by
  unfold initConfig
  rw [if_neg (by decide), h]

/-! ## Lemmas on the codec -/

theorem hexChar_hexValue (c : Char) (h : isHex c = true) : hexChar (hexValue c) = c.toLower := by
  have hlt : hexValue c < hexDigits.length := by
    simpa [isHex, hexDigits] using h
  unfold hexChar
  rw [List.getD_eq_getElem _ _ hlt]
  exact List.getElem_indexOf hlt

theorem hexValue_lt (c : Char) (h : isHex c = true) : hexValue c < 16 := by
  simpa [isHex] using h

theorem hexToNat_append (cs : List Char) (c : Char) :
    hexToNat (cs ++ [c]) = 16 * hexToNat cs + hexValue c := by
  simp [hexToNat, List.foldl_append]

theorem natToHex_hexToNat (cs : List Char) (h : ∀ c ∈ cs, isHex c = true) :
    natToHex cs.length (hexToNat cs) = cs.map Char.toLower := by
  induction cs using List.reverseRecOn with
  | nil => rfl
  | append_singleton cs c ih =>
    have hc : isHex c = true := h c (by simp)
    have hcs : ∀ d ∈ cs, isHex d = true := fun d hd => h d (by simp [hd])
    have hv := hexValue_lt c hc
    rw [hexToNat_append, List.length_append, List.length_singleton, natToHex]
    have hdiv : (16 * hexToNat cs + hexValue c) / 16 = hexToNat cs := by omega
    have hmod : (16 * hexToNat cs + hexValue c) % 16 = hexValue c := by omega
    rw [hdiv, hmod, ih hcs, hexChar_hexValue c hc]
    simp

theorem splitFields_field (field : List Char) (h : '-' ∉ field) :
    splitFields field = [field] := by
  induction field with
  | nil => rfl
  | cons c cs ih =>
    have hc : c ≠ '-' := fun e => h (by simp [e])
    have hcs : '-' ∉ cs := fun e => h (by simp [e])
    rw [splitFields, if_neg hc, ih hcs]

theorem splitFields_append (field rest : List Char) (h : '-' ∉ field) :
    splitFields (field ++ '-' :: rest) = field :: splitFields rest := by
  induction field with
  | nil => simp [splitFields]
  | cons c cs ih =>
    have hc : c ≠ '-' := fun e => h (by simp [e])
    have hcs : '-' ∉ cs := fun e => h (by simp [e])
    rw [List.cons_append, splitFields, if_neg hc, ih hcs]

theorem not_mem_of_isHex (field : List Char) (h : ∀ c ∈ field, isHex c = true) :
    '-' ∉ field := by
  intro hmem
  have := h '-' hmem
  revert this
  decide

/-! ## The span kind -/

theorem otelSpanKind_default_arm (s : String)
    (h1 : s ≠ "internal") (h2 : s ≠ "server") (h3 : s ≠ "client")
    (h4 : s ≠ "producer") (h5 : s ≠ "consumer") :
    otelSpanKind s = SpanKind.SpanKindUnspecified := by
  simp [otelSpanKind, h1, h2, h3, h4, h5]

/-- C1: every string that is not exactly one of "internal", "server",
"client", "producer", "consumer" is resolved by `otelSpanKind` to the
UNSPECIFIED span kind; the function is total, so there is no failure. -/
theorem otelSpanKind_unrecognised (s : String)
    (h : s ∉ ["internal", "server", "client", "producer", "consumer"]) :
    otelSpanKind s = SpanKind.SpanKindUnspecified := by
  simp only [List.mem_cons, List.mem_singleton, List.not_mem_nil, or_false, not_or] at h
  obtain ⟨h1, h2, h3, h4, h5⟩ := h
  exact otelSpanKind_default_arm s h1 h2 h3 h4 h5

theorem otelSpanKind_unrecognised_witness :
    otelSpanKind "banana" = SpanKind.SpanKindUnspecified ∧
    otelSpanKind "" = SpanKind.SpanKindUnspecified ∧
    otelSpanKind "Client" = SpanKind.SpanKindUnspecified ∧
    otelSpanKind "SERVER" = SpanKind.SpanKindUnspecified :=
  ⟨otelSpanKind_unrecognised "banana" (by decide),
   otelSpanKind_unrecognised "" (by decide),
   otelSpanKind_unrecognised "Client" (by decide),
   otelSpanKind_unrecognised "SERVER" (by decide)⟩

/-- C2: `otelSpanKind` sends each of the five recognised strings to its own
span kind; the result is UNSPECIFIED exactly when the string is none of the
five, and two recognised strings with the same kind are the same string. -/
theorem otelSpanKind_recognised (s t : String) :
    (otelSpanKind "internal" = SpanKind.SpanKindInternal ∧
     otelSpanKind "server" = SpanKind.SpanKindServer ∧
     otelSpanKind "client" = SpanKind.SpanKindClient ∧
     otelSpanKind "producer" = SpanKind.SpanKindProducer ∧
     otelSpanKind "consumer" = SpanKind.SpanKindConsumer) ∧
    (otelSpanKind s = SpanKind.SpanKindUnspecified ↔
      s ∉ ["internal", "server", "client", "producer", "consumer"]) ∧
    (s ∈ ["internal", "server", "client", "producer", "consumer"] →
      t ∈ ["internal", "server", "client", "producer", "consumer"] →
      otelSpanKind s = otelSpanKind t → s = t) := by
  refine ⟨⟨by decide, by decide, by decide, by decide, by decide⟩, ?_, ?_⟩
  · constructor
    · intro h hmem
      simp only [List.mem_cons, List.mem_singleton, List.not_mem_nil, or_false] at hmem
      rcases hmem with rfl | rfl | rfl | rfl | rfl <;> revert h <;> decide
    · intro h
      simp only [List.mem_cons, List.mem_singleton, List.not_mem_nil, or_false, not_or] at h
      exact otelSpanKind_default_arm s h.1 h.2.1 h.2.2.1 h.2.2.2.1 h.2.2.2.2
  · intro hs ht
    simp only [List.mem_cons, List.mem_singleton, List.not_mem_nil, or_false] at hs ht
    rcases hs with rfl | rfl | rfl | rfl | rfl <;>
      rcases ht with rfl | rfl | rfl | rfl | rfl <;> decide

theorem otelSpanKind_recognised_witness :
    otelSpanKind "producer" = SpanKind.SpanKindProducer ∧
    otelSpanKind "Server" = SpanKind.SpanKindUnspecified ∧
    otelSpanKind "server" ≠ otelSpanKind "client" :=
  ⟨(otelSpanKind_recognised "Server" "client").1.2.2.2.1,
   (otelSpanKind_recognised "Server" "client").2.1.mpr (by decide),
   fun h => absurd ((otelSpanKind_recognised "server" "client").2.2
     (by decide) (by decide) h) (by decide)⟩

/-- C9: when `--kind` is not on the command line, `spanKind` holds the default
"client" registered by `init`, and `otelSpanKind` returns CLIENT, which is
neither UNSPECIFIED nor INTERNAL. -/
theorem default_spanKind_client (args : List FlagArg)
    (h : ∀ a ∈ args, givesKind a = false) :
    (parseFlags args).1.spanKind = "client" ∧
    otelSpanKind (parseFlags args).1.spanKind = SpanKind.SpanKindClient ∧
    otelSpanKind (parseFlags args).1.spanKind ≠ SpanKind.SpanKindUnspecified ∧
    otelSpanKind (parseFlags args).1.spanKind ≠ SpanKind.SpanKindInternal := by
  have hk : (parseFlags args).1.spanKind = "client" :=
    foldl_setFlag_spanKind args (init, false) h
  rw [hk]
  exact ⟨rfl, by decide, by decide, by decide⟩

theorem default_spanKind_client_witness :
    (parseFlags [FlagArg.serviceName "ci", FlagArg.printSpan true]).1.spanKind = "client" ∧
    otelSpanKind (parseFlags [FlagArg.serviceName "ci", FlagArg.printSpan true]).1.spanKind
      = SpanKind.SpanKindClient ∧
    otelSpanKind (parseFlags [FlagArg.serviceName "ci", FlagArg.printSpan true]).1.spanKind
      ≠ SpanKind.SpanKindUnspecified ∧
    otelSpanKind (parseFlags [FlagArg.serviceName "ci", FlagArg.printSpan true]).1.spanKind
      ≠ SpanKind.SpanKindInternal :=
  default_spanKind_client [FlagArg.serviceName "ci", FlagArg.printSpan true]
    (by simp [givesKind])

/-! ## The service name -/

/-- C8: the service name defaults to "otel-cli": a command line without
`--service-name` leaves `appName` at "otel-cli", and a command line whose last
`--service-name` carries the value `v` leaves it at `v`. -/
theorem serviceName_default (pre post : List FlagArg) (v : String)
    (hpost : ∀ a ∈ post, givesServiceName a = false) :
    init.appName = "otel-cli" ∧
    (parseFlags post).1.appName = "otel-cli" ∧
    (parseFlags (pre ++ FlagArg.serviceName v :: post)).1.appName = v := by
  refine ⟨rfl, foldl_setFlag_appName post (init, false) hpost, ?_⟩
  unfold parseFlags
  rw [List.foldl_append, List.foldl_cons, foldl_setFlag_appName post _ hpost]
  rfl

theorem serviceName_default_witness :
    init.appName = "otel-cli" ∧
    (parseFlags [FlagArg.kind "server"]).1.appName = "otel-cli" ∧
    (parseFlags ([FlagArg.serviceName "old"] ++ FlagArg.serviceName "billing"
      :: [FlagArg.kind "server"])).1.appName = "billing" :=
  serviceName_default [FlagArg.serviceName "old"] [FlagArg.kind "server"] "billing"
    (by simp [givesServiceName])

/-! ## The configuration bootstrap -/

/-- C3, as stated, fails: with the config file `missing.yaml` named on the
command line and `viper.ReadInConfig()` returning an error, `initConfig`
makes its three calls and returns; `cobra.CheckErr` is never reached. -/
theorem initConfig_named_unreadable_returns :
    worldNoFile.viperReadInConfig
        [Call.viperSetConfigFile "missing.yaml", Call.viperAutomaticEnv]
      = some "config file not found" ∧
    initConfig "missing.yaml" worldNoFile =
      ([Call.viperSetConfigFile "missing.yaml", Call.viperAutomaticEnv,
        Call.viperReadInConfig], Outcome.returned) := by
  refine ⟨rfl, ?_⟩
  rw [initConfig_named "missing.yaml" worldNoFile (by decide),
    readConfig_of_error worldNoFile _ "config file not found" rfl]
  rfl

/-- C3, amended: for every non-empty explicitly named config file path, if
reading that file fails, `initConfig` drops the error: it returns normally,
having called `SetConfigFile`, `AutomaticEnv` and `ReadInConfig` only, and
prints no notice. -/
theorem initConfig_named_read_error_ignored (cfgFile : String) (w : World) (e : String)
    (hnamed : cfgFile ≠ "")
    (hread : w.viperReadInConfig
      [Call.viperSetConfigFile cfgFile, Call.viperAutomaticEnv] = some e) :
    initConfig cfgFile w =
      ([Call.viperSetConfigFile cfgFile, Call.viperAutomaticEnv, Call.viperReadInConfig],
       Outcome.returned) ∧
    (∀ c ∈ (initConfig cfgFile w).1, isUsingNotice c = false) := by
  have hrun : initConfig cfgFile w =
      ([Call.viperSetConfigFile cfgFile, Call.viperAutomaticEnv, Call.viperReadInConfig],
       Outcome.returned) := by
    rw [initConfig_named cfgFile w hnamed, readConfig_of_error w _ e hread]
    rfl
  refine ⟨hrun, ?_⟩
  rw [hrun]
  intro c hc
  simp only [List.mem_cons, List.mem_singleton, List.not_mem_nil, or_false] at hc
  rcases hc with rfl | rfl | rfl <;> rfl

theorem initConfig_named_read_error_ignored_witness :
    initConfig "missing.yaml" worldNoHome =
      ([Call.viperSetConfigFile "missing.yaml", Call.viperAutomaticEnv,
        Call.viperReadInConfig], Outcome.returned) ∧
    (∀ c ∈ (initConfig "missing.yaml" worldNoHome).1, isUsingNotice c = false) :=
  initConfig_named_read_error_ignored "missing.yaml" worldNoHome "config file not found"
    (by decide) rfl

/-- C6: with no config file named and the home directory determined,
`initConfig` returns normally whether reading the default file succeeds or
fails, and the "Using config file:" notice is among its calls exactly when
the read returned no error. -/
theorem initConfig_default_file_tolerated (w : World) (home : String)
    (hhome : w.homedirDir = (home, none)) :
    (initConfig "" w).2 = Outcome.returned ∧
    ((∃ c ∈ (initConfig "" w).1, isUsingNotice c = true) ↔
      w.viperReadInConfig
        [Call.homedirDir, Call.cobraCheckErr none, Call.viperAddConfigPath home,
         Call.viperSetConfigName ".otel-cli", Call.viperAutomaticEnv] = none) := by
  rw [initConfig_default w home hhome]
  refine ⟨readConfig_outcome w _, ?_⟩
  cases hread : w.viperReadInConfig
      [Call.homedirDir, Call.cobraCheckErr none, Call.viperAddConfigPath home,
       Call.viperSetConfigName ".otel-cli", Call.viperAutomaticEnv] with
  | none =>
    rw [readConfig_of_nil w _ hread]
    simp [isUsingNotice]
  | some e =>
    rw [readConfig_of_error w _ e hread]
    simp [isUsingNotice]

theorem initConfig_default_file_tolerated_witness :
    (initConfig "" worldNoFile).2 = Outcome.returned ∧
    ((∃ c ∈ (initConfig "" worldNoFile).1, isUsingNotice c = true) ↔
      worldNoFile.viperReadInConfig
        [Call.homedirDir, Call.cobraCheckErr none, Call.viperAddConfigPath "/home/op",
         Call.viperSetConfigName ".otel-cli", Call.viperAutomaticEnv] = none) :=
  initConfig_default_file_tolerated worldNoFile "/home/op" rfl

/-- C7, as stated, fails for the empty path: when `homedir.Dir()` returns an
error, `initConfig` ends in `cobra.CheckErr` after two calls, and neither a
search path nor the config name ".otel-cli" has been registered, although a
default config file could have been read. -/
theorem initConfig_empty_path_without_home :
    worldHomeLookupFails.viperReadInConfig
        [Call.homedirDir, Call.cobraCheckErr none, Call.viperAddConfigPath "",
         Call.viperSetConfigName ".otel-cli", Call.viperAutomaticEnv] = none ∧
    initConfig "" worldHomeLookupFails =
      ([Call.homedirDir, Call.cobraCheckErr (some "cannot determine home directory")],
       Outcome.exited "cannot determine home directory") ∧
    (∀ p, Call.viperAddConfigPath p ∉ (initConfig "" worldHomeLookupFails).1) ∧
    (∀ n, Call.viperSetConfigName n ∉ (initConfig "" worldHomeLookupFails).1) := by
  have hrun : initConfig "" worldHomeLookupFails =
      ([Call.homedirDir, Call.cobraCheckErr (some "cannot determine home directory")],
       Outcome.exited "cannot determine home directory") := by
    unfold initConfig
    rw [if_neg (by decide)]
    rfl
  refine ⟨rfl, hrun, ?_, ?_⟩ <;> rw [hrun] <;> simp

/-- C7, amended: a non-empty explicit path is handed to `viper.SetConfigFile` as the
first call, `homedir.Dir` is not called and its answer has no influence, and
no search path or config name is registered; with the empty path (and the home
directory determined) the calls begin with the lookup of the home directory,
which is registered as the search path of the config name ".otel-cli", and
no explicit config file is set. -/
theorem initConfig_location (cfgFile : String) (w : World) (home : String) :
    (cfgFile ≠ "" →
      (initConfig cfgFile w).1.head? = some (Call.viperSetConfigFile cfgFile) ∧
      Call.homedirDir ∉ (initConfig cfgFile w).1 ∧
      (∀ p, Call.viperAddConfigPath p ∉ (initConfig cfgFile w).1) ∧
      (∀ n, Call.viperSetConfigName n ∉ (initConfig cfgFile w).1) ∧
      (∀ p, Call.viperSetConfigFile p ∈ (initConfig cfgFile w).1 → p = cfgFile) ∧
      (∀ h, initConfig cfgFile { w with homedirDir := h } = initConfig cfgFile w)) ∧
    (w.homedirDir = (home, none) →
      (initConfig "" w).1.take 4 =
        [Call.homedirDir, Call.cobraCheckErr none, Call.viperAddConfigPath home,
         Call.viperSetConfigName ".otel-cli"] ∧
      (∀ p, Call.viperSetConfigFile p ∉ (initConfig "" w).1) ∧
      (∀ p, Call.viperAddConfigPath p ∈ (initConfig "" w).1 → p = home) ∧
      (∀ n, Call.viperSetConfigName n ∈ (initConfig "" w).1 → n = ".otel-cli")) := by
  constructor
  · intro hnamed
    have hind : ∀ h, initConfig cfgFile { w with homedirDir := h } = initConfig cfgFile w := by
      intro h
      rw [initConfig_named cfgFile _ hnamed, initConfig_named cfgFile w hnamed]
      rfl
    rw [initConfig_named cfgFile w hnamed] at hind ⊢
    cases hread : w.viperReadInConfig
        ([Call.viperSetConfigFile cfgFile] ++ [Call.viperAutomaticEnv]) with
    | none =>
      rw [readConfig_of_nil w _ hread] at hind ⊢
      refine ⟨rfl, ?_, ?_, ?_, ?_, hind⟩ <;> simp
    | some e =>
      rw [readConfig_of_error w _ e hread] at hind ⊢
      refine ⟨rfl, ?_, ?_, ?_, ?_, hind⟩ <;> simp
  · intro hhome
    rw [initConfig_default w home hhome]
    cases hread : w.viperReadInConfig
        ([Call.homedirDir, Call.cobraCheckErr none, Call.viperAddConfigPath home,
          Call.viperSetConfigName ".otel-cli"] ++ [Call.viperAutomaticEnv]) with
    | none =>
      rw [readConfig_of_nil w _ hread]
      refine ⟨rfl, ?_, ?_, ?_⟩ <;> simp
    | some e =>
      rw [readConfig_of_error w _ e hread]
      refine ⟨rfl, ?_, ?_, ?_⟩ <;> simp

theorem initConfig_location_witness :
    ((initConfig "/etc/otel.yaml" worldDefaultFile).1.head?
        = some (Call.viperSetConfigFile "/etc/otel.yaml") ∧
      Call.homedirDir ∉ (initConfig "/etc/otel.yaml" worldDefaultFile).1) ∧
    ((initConfig "" worldDefaultFile).1.take 4 =
        [Call.homedirDir, Call.cobraCheckErr none, Call.viperAddConfigPath "/home/op",
         Call.viperSetConfigName ".otel-cli"]) :=
  ⟨⟨((initConfig_location "/etc/otel.yaml" worldDefaultFile "/home/op").1 (by decide)).1,
    ((initConfig_location "/etc/otel.yaml" worldDefaultFile "/home/op").1 (by decide)).2.1⟩,
   ((initConfig_location "/etc/otel.yaml" worldDefaultFile "/home/op").2 rfl).1⟩

/-- C10: with no config file named, an error from `homedir.Dir()` reaches
`cobra.CheckErr`, which ends the invocation with that error after these two
calls only — no viper call is made; with a config file named, `initConfig`
returns normally whatever `homedir.Dir()` would answer. -/
theorem initConfig_homedir_error (cfgFile : String) (w : World) (home err : String) :
    (w.homedirDir = (home, some err) →
      initConfig "" w =
        ([Call.homedirDir, Call.cobraCheckErr (some err)], Outcome.exited err)) ∧
    (cfgFile ≠ "" →
      ∀ h, (initConfig cfgFile { w with homedirDir := h }).2 = Outcome.returned) := by
  constructor
  · intro hhome
    unfold initConfig
    rw [if_neg (by decide), hhome]
  · intro hnamed h
    rw [initConfig_named cfgFile _ hnamed]
    exact readConfig_outcome _ _

theorem initConfig_homedir_error_witness :
    initConfig "" worldNoHome =
        ([Call.homedirDir, Call.cobraCheckErr (some "missing HOME")],
         Outcome.exited "missing HOME") ∧
    (initConfig "/etc/otel.yaml"
      { worldDefaultFile with homedirDir := ("", some "missing HOME") }).2
        = Outcome.returned :=
  ⟨(initConfig_homedir_error "/etc/otel.yaml" worldNoHome "" "missing HOME").1 rfl,
   (initConfig_homedir_error "/etc/otel.yaml" worldDefaultFile "" "missing HOME").2
     (by decide) ("", some "missing HOME")⟩

/-! ## The attributes setting -/

/-- C4, as stated, fails: with `--attrs "foo=bar,baz=inga"` and a config file
giving `{baz: old, qux: keep}`, the key-wise union of the two maps holds
`qux: keep`, but the variable `attributes` does not hold the key `qux`: it is
not that union. -/
theorem attributes_not_union_with_config :
    (attrsBazQux.assignAll attrsFooBaz) "foo" = some "bar" ∧
    (attrsBazQux.assignAll attrsFooBaz) "baz" = some "inga" ∧
    (attrsBazQux.assignAll attrsFooBaz) "qux" = some "keep" ∧
    (parseFlags [FlagArg.attrs attrsFooBaz]).1.attributes "qux" = none ∧
    (parseFlags [FlagArg.attrs attrsFooBaz]).1.attributes
      ≠ attrsBazQux.assignAll attrsFooBaz := by
  refine ⟨by decide, by decide, by decide, by decide, ?_⟩
  intro h
  have hq := congrFun h "qux"
  revert hq
  decide

/-- C4, amended: the variable `attributes` holds what `--attrs` gives and
nothing else. A key that no occurrence of `--attrs` on the command line gives
is absent from it, whatever a config file holds; a key given by an occurrence
of `--attrs`, and by no later one, has the value of that occurrence. -/
theorem attributes_from_flags_only (pre post : List FlagArg) (m : StringMap) (k v : String)
    (hpost : ∀ a ∈ post, attrsValue k a = none) :
    (parseFlags post).1.attributes k = none ∧
    (m k = some v →
      (parseFlags (pre ++ FlagArg.attrs m :: post)).1.attributes k = some v) := by
  constructor
  · exact foldl_setFlag_attributes_none k post (init, false) rfl hpost
  · intro hm
    unfold parseFlags
    rw [List.foldl_append, List.foldl_cons]
    obtain ⟨h1, h2⟩ := setFlag_attrs_gives k v (List.foldl setFlag (init, false) pre) m hm
    rw [foldl_setFlag_attributes_kept k post _ h2 hpost, h1]

theorem attributes_from_flags_only_witness :
    (parseFlags [FlagArg.attrs attrsFooBaz, FlagArg.kind "server"]).1.attributes "qux"
      = none ∧
    (parseFlags ([FlagArg.attrs attrsFooBaz] ++ FlagArg.attrs attrsBazNew ::
      [FlagArg.kind "server"])).1.attributes "baz" = some "new" :=
  ⟨(attributes_from_flags_only [] [FlagArg.attrs attrsFooBaz, FlagArg.kind "server"]
      attrsBazNew "qux" "new" (by simp [attrsValue, attrsFooBaz])).1,
   (attributes_from_flags_only [FlagArg.attrs attrsFooBaz] [FlagArg.kind "server"]
      attrsBazNew "baz" "new" (by simp [attrsValue])).2 (by decide)⟩

/-! ## The traceparent round trip -/

/-- C5: a traceparent made of four hyphen-delimited hex fields of lengths
2/32/16/2, with the supported version and non-zero trace id and span id,
optionally followed by further hyphen-led vendor fields, decodes to the
context its fields spell, and that context encodes to the four fields in
lower case, the vendor fields being dropped. -/
theorem decode_encode_roundtrip (version traceId spanId flags rest : List Char)
    (hlen : version.length = 2 ∧ traceId.length = 32 ∧ spanId.length = 16 ∧ flags.length = 2)
    (hhex : ∀ c ∈ version ++ traceId ++ spanId ++ flags, isHex c = true)
    (hversion : hexToNat version = supportedVersion)
    (htrace : hexToNat traceId ≠ 0) (hspan : hexToNat spanId ≠ 0)
    (hrest : rest = [] ∨ rest.head? = some '-') :
    decode (String.mk
        (version ++ '-' :: (traceId ++ '-' :: (spanId ++ '-' :: (flags ++ rest))))) =
      Except.ok
        { trace_id := hexToNat traceId, span_id := hexToNat spanId,
          trace_flags := hexToNat flags, version := supportedVersion } ∧
    encode
        { trace_id := hexToNat traceId, span_id := hexToNat spanId,
          trace_flags := hexToNat flags, version := supportedVersion } =
      String.mk
        ((version ++ '-' :: (traceId ++ '-' :: (spanId ++ '-' :: flags))).map Char.toLower) := by
  obtain ⟨hl1, hl2, hl3, hl4⟩ := hlen
  have hx1 : ∀ c ∈ version, isHex c = true := fun c hc => hhex c (by simp [hc])
  have hx2 : ∀ c ∈ traceId, isHex c = true := fun c hc => hhex c (by simp [hc])
  have hx3 : ∀ c ∈ spanId, isHex c = true := fun c hc => hhex c (by simp [hc])
  have hx4 : ∀ c ∈ flags, isHex c = true := fun c hc => hhex c (by simp [hc])
  have hsplit : ∃ vendor, splitFields
      (version ++ '-' :: (traceId ++ '-' :: (spanId ++ '-' :: (flags ++ rest)))) =
      version :: traceId :: spanId :: flags :: vendor := by
    rw [splitFields_append _ _ (not_mem_of_isHex _ hx1),
      splitFields_append _ _ (not_mem_of_isHex _ hx2),
      splitFields_append _ _ (not_mem_of_isHex _ hx3)]
    rcases hrest with rfl | hhead
    · exact ⟨[], by rw [List.append_nil, splitFields_field _ (not_mem_of_isHex _ hx4)]⟩
    · cases rest with
      | nil => simp at hhead
      | cons r rs =>
        have hr : r = '-' := by simpa using hhead
        subst hr
        exact ⟨splitFields rs, by rw [splitFields_append _ _ (not_mem_of_isHex _ hx4)]⟩
  obtain ⟨vendor, hfields⟩ := hsplit
  constructor
  · have hall : (version ++ traceId ++ spanId ++ flags).all isHex = true := by
      rw [List.all_eq_true]
      exact hhex
    unfold decode
    simp only [String.toList, hfields, hl1, hl2, hl3, hl4, hall, hversion]
    simp [htrace, hspan]
  · unfold encode
    have e1 := natToHex_hexToNat version hx1
    have e2 := natToHex_hexToNat traceId hx2
    have e3 := natToHex_hexToNat spanId hx3
    have e4 := natToHex_hexToNat flags hx4
    rw [hl1, hversion] at e1
    rw [hl2] at e2
    rw [hl3] at e3
    rw [hl4] at e4
    have hsep : Char.toLower '-' = '-' := by decide
    simp only [e1, e2, e3, e4, List.map_append, List.map_cons, hsep]

theorem decode_encode_roundtrip_witness :
    (decode "00-4bf92f3577b34da6a3ce929d0e0e4736-00f067aa0ba902b7-01" =
      Except.ok
        { trace_id := 0x4bf92f3577b34da6a3ce929d0e0e4736, span_id := 0x00f067aa0ba902b7,
          trace_flags := 0x01, version := 0 } ∧
     encode
        { trace_id := 0x4bf92f3577b34da6a3ce929d0e0e4736, span_id := 0x00f067aa0ba902b7,
          trace_flags := 0x01, version := 0 } =
      "00-4bf92f3577b34da6a3ce929d0e0e4736-00f067aa0ba902b7-01") ∧
    decode "00-4BF92F3577B34DA6A3CE929D0E0E4736-00f067aa0ba902b7-01-congo=t61rcWkgMzE" =
      Except.ok
        { trace_id := 0x4bf92f3577b34da6a3ce929d0e0e4736, span_id := 0x00f067aa0ba902b7,
          trace_flags := 0x01, version := 0 } :=
  ⟨decode_encode_roundtrip "00".toList "4bf92f3577b34da6a3ce929d0e0e4736".toList
    "00f067aa0ba902b7".toList "01".toList [] (by decide) (by decide) (by decide)
    (by decide) (by decide) (by decide),
   (decode_encode_roundtrip "00".toList "4BF92F3577B34DA6A3CE929D0E0E4736".toList
    "00f067aa0ba902b7".toList "01".toList "-congo=t61rcWkgMzE".toList (by decide) (by decide)
    (by decide) (by decide) (by decide) (by decide)).1⟩

end OtelCli
